import Mathlib

/-!
# Verification of the cpp-cheat OS-example programs

Shallow embedding of the two C programs of this repository and proofs of the
specified properties about them.

* `src/gdb/count_infinite.c` — the busy-counter: an infinite loop incrementing
  an `int` counter and printing `i / PERIOD` every `PERIOD = 100000000`
  iterations.
* `src/posix/fork.c` — the fork demonstrator: a program that duplicates itself
  with `fork()`, prints identifying checkpoint lines from both processes, has
  the parent `wait()` for the child and inspect its exit status, and checks
  several invariants with `assert`.

Modelling conventions:

* The busy-counter's `int i` is modelled as a `Nat`.  Within the range where
  the C program's behaviour is defined (`i ≤ 2147483647`, before signed
  overflow), the C `int` values coincide with these naturals, and theorems
  about reached iteration counts carry that bound as a hypothesis.
* The fork demonstrator is a straight-line program whose only inputs are the
  results of OS calls (`getpid`, `getppid`, `fork`, `wait`).  Those results are
  collected in an environment record `ForkEnv`; the program body is a pure
  function of the environment.  OS guarantees (e.g. that `getpid` returns the
  same value on both of its pre-fork calls, or that the child's pid is fresh)
  are hypotheses of the theorems, never baked into the program text.
* Output lines are modelled structurally (inductive `Line`) together with a
  `render` function reproducing the exact `printf` formats, so that claims
  about tags and line shapes can be stated precisely.
* `wait`'s status is modelled as a `Nat` using the glibc encodings:
  `WIFEXITED(s) = ((s & 0x7f) == 0)` becomes `s % 128 = 0` and
  `WEXITSTATUS(s) = ((s & 0xff00) >> 8)` becomes `s / 256 % 256`.
-/

/-! ## Busy-counter (`src/gdb/count_infinite.c`) -/

/-- `static const int PERIOD = 100000000;` -/
def PERIOD : Nat := 100000000

/-- The loop guard of `while (1)`: the C truth value of the constant `1`.
It does not depend on the loop state. -/
def busyGuard (_s : Nat × List Nat) : Bool := (1 : Int) != 0

/-- One execution of the loop body of `count_infinite.c`'s `main`, generalised
over the period `P`: increment `i`, and if `i % P == 0` emit `i / P`.
The state is the counter together with the list of values printed so far. -/
def countStep (P : Nat) (s : Nat × List Nat) : Nat × List Nat :=
  let i := s.1 + 1
  (i, s.2 ++ if i % P = 0 then [i / P] else [])

/-- The state after `n` iterations of the loop body, starting from `i = 0`
and no output. -/
def countIter (P : Nat) (n : Nat) : Nat × List Nat := (countStep P)^[n] (0, [])

/-- One iteration of the busy-counter exactly as in the source
(`P = PERIOD`). -/
def busyStep (s : Nat × List Nat) : Nat × List Nat := countStep PERIOD s

/-- The busy-counter's state after `n` iterations. -/
def busyRun (n : Nat) : Nat × List Nat := countIter PERIOD n

/-! ## Fork demonstrator (`src/posix/fork.c`) -/

/-- `EXIT_SUCCESS` -/
def EXIT_SUCCESS : Nat := 0

/-- `EXIT_FAILURE` -/
def EXIT_FAILURE : Nat := 1

/-- `WIFEXITED(s)`, i.e. `(s & 0x7f) == 0` in the glibc encoding. -/
def wifexited (s : Nat) : Bool := s % 128 = 0

/-- `WEXITSTATUS(s)`, i.e. `(s & 0xff00) >> 8` in the glibc encoding. -/
def wexitstatus (s : Nat) : Nat := s / 256 % 256

/-- The wait status the kernel delivers when a child terminates normally with
exit code `c` (`(c & 0xff) << 8`). -/
def encodeExit (c : Nat) : Nat := 256 * (c % 256)

/-- The wait-status values the kernel can actually deliver: normal termination
(code shifted left by 8), termination by a signal `1..126` (optionally with the
core-dump bit `0x80`), or a stop status (`0x7f` plus the stop signal shifted
left by 8). -/
def KernelStatus (s : Nat) : Prop :=
  (∃ c, c < 256 ∧ s = 256 * c) ∨
  (∃ g, 1 ≤ g ∧ g ≤ 126 ∧ (s = g ∨ s = g + 128)) ∨
  (∃ g, s = 127 + 256 * g)

/-- A line written to standard output by the fork demonstrator: either a
checkpoint line produced by `print_pid`, or the final `fork() return` line. -/
inductive Line where
  | checkpoint (tag : String) (pid ppid : Int)
  | forkReturn (pid : Int)
deriving DecidableEq, Repr

/-- The exact text of a line, following the `printf` formats in the source:
`print_pid` prints `"%s "` then `"pid=%jd ppid=%jd\n"`, and `main` ends with
`"fork() return = %jd\n"`. -/
def render : Line → String
  | .checkpoint tag pid ppid => s!"{tag} pid={pid} ppid={ppid}"
  | .forkReturn pid => s!"fork() return = {pid}"

/-- The local variables of `main`: `int i; pid_t pid; pid_t ppid; int status`.
`status` is `none` until `wait` has filled it in. -/
structure Vars where
  i : Int
  pid : Int
  ppid : Int
  status : Option Nat
deriving DecidableEq, Repr

/-- How one process of the fork demonstrator ends. -/
inductive Outcome where
  | exited (code : Nat)
  | aborted
deriving DecidableEq, Repr

/-- The observable result of one process executing `main`: the stdout lines it
writes, the `perror` diagnostics it writes to stderr, how it terminates, and
(when it runs to a normal exit) the final values of `main`'s locals. -/
structure ProcResult where
  lines : List Line
  errs : List String
  outcome : Outcome
  finalVars : Option Vars
deriving DecidableEq, Repr

/-- The OS-call results observed by one process running `main`:

* `pidInit` — the `getpid()` stored into `ppid` at the top of `main`;
* `pidPre`, `ppidPre` — the `getpid()`/`getppid()` inside
  `print_pid("before fork")`;
* `forkRet` — what `fork()` returned in this process (`0` in the child);
* `pidPost`, `ppidPost` — the `getpid()`/`getppid()` results in this process
  after the fork (all post-fork queries of one process agree, since the
  process's identity no longer changes);
* `waitStatus` — the status `wait` stores (parent only). -/
structure ForkEnv where
  pidInit : Int
  pidPre : Int
  ppidPre : Int
  forkRet : Int
  pidPost : Int
  ppidPost : Int
  waitStatus : Nat
deriving Repr

/-- The part of `main` from `print_pid("after fork")` to the end, as executed
by a process in which `fork()` returned `pid`, with counter value `i` and
stored parent pid `ppid`.  This is common to the parent (nonzero `pid`) and
the child (`pid = 0`, which inherits `i` and `ppid` from the parent's pre-fork
state). -/
def postFork (env : ForkEnv) (i ppid pid : Int) : ProcResult :=
  let l2 := Line.checkpoint "after fork" env.pidPost env.ppidPost
  if pid = 0 then
    -- child branch
    let l3 := Line.checkpoint "inside (pid == 0)" env.pidPost env.ppidPost
    let pid := env.pidPost    -- pid = getpid();
    if pid = -1 then
      ⟨[l2, l3], ["getpid"], .exited EXIT_FAILURE, none⟩
    else if pid = ppid then   -- assert(pid != ppid) fails
      ⟨[l2, l3], [], .aborted, none⟩
    else
      -- i++; exit(EXIT_SUCCESS);
      ⟨[l2, l3], [], .exited EXIT_SUCCESS, some ⟨i + 1, pid, ppid, none⟩⟩
  else
    -- parent branch
    let l3 := Line.checkpoint "after (pid == 0)" env.pidPost env.ppidPost
    let status := env.waitStatus
    if wifexited status then
      if status = wexitstatus EXIT_SUCCESS then
        -- assert(status == WEXITSTATUS(EXIT_SUCCESS)) passes
        let l4 := Line.checkpoint "after wait" env.pidPost env.ppidPost
        let l5 := Line.forkReturn pid
        if i = 0 then
          ⟨[l2, l3, l4, l5], [], .exited EXIT_SUCCESS, some ⟨i, pid, ppid, some status⟩⟩
        else
          -- assert(i == 0) fails (after the prints)
          ⟨[l2, l3, l4, l5], [], .aborted, none⟩
      else
        ⟨[l2, l3], [], .aborted, none⟩
    else
      ⟨[l2, l3], ["execl abnormal exit"], .aborted, none⟩

/-- `main` of `fork.c` as executed by the process that starts it (the parent):
initialise `i = 0`, capture `ppid = getpid()` with its error check, print the
`"before fork"` line, call `fork()` with its error check, then continue in
`postFork`. -/
def forkMain (env : ForkEnv) : ProcResult :=
  let i : Int := 0
  let ppid := env.pidInit
  if ppid = -1 then
    ⟨[], ["getpid"], .exited EXIT_FAILURE, none⟩
  else
    let l1 := Line.checkpoint "before fork" env.pidPre env.ppidPre
    let pid := env.forkRet
    if pid = -1 then
      ⟨[l1], ["fork"], .aborted, none⟩
    else
      let r := postFork env i ppid pid
      ⟨l1 :: r.lines, r.errs, r.outcome, r.finalVars⟩

/-- The child process of a successful fork: it starts executing right after the
`fork()` call with `fork`'s return value `0`, inheriting the parent's pre-fork
variable values (`i = 0`, `ppid = penv.pidInit`).  Because the parent flushed
stdout before forking, the child's contribution to the output starts at its
`"after fork"` line. -/
def childRun (penv cenv : ForkEnv) : ProcResult := postFork cenv 0 penv.pidInit 0

/-- The multiset of stdout lines of a whole successful run (parent plus child).
The interleaving of the two processes' writes is unspecified; only membership
and multiplicity of lines are meaningful here. -/
def runLines (penv cenv : ForkEnv) : List Line := (forkMain penv).lines ++ (childRun penv cenv).lines

/-- `strPre p s` : the character list `p` is a prefix of `s`. -/
def strPre : List Char → List Char → Bool
  | [], _ => true
  | _ :: _, [] => false
  | a :: as, b :: bs => a = b && strPre as bs

/-- The line is a checkpoint whose tag begins with `t`. -/
def taggedStart (t : String) : Line → Bool
  | .checkpoint g _ _ => strPre t.data g.data
  | .forkReturn _ => false

/-- The line is a checkpoint whose tag is exactly `t`. -/
def taggedExact (t : String) : Line → Bool
  | .checkpoint g _ _ => g = t
  | .forkReturn _ => false

/-! ## Concrete environments used as witnesses and counterexamples -/

/-- A parent-process environment of a clean run: the parent has pid 7 (its own
parent being 3), `fork` returns child pid 8, and `wait` reports status 0
(child exited normally with code 0). -/
def penvC : ForkEnv := ⟨7, 7, 3, 8, 7, 3, 0⟩

/-- The matching child-process environment: `fork` returned 0, the child's own
pid is 8 and its `getppid` is the parent 7. -/
def cenvC : ForkEnv := ⟨7, 7, 3, 0, 8, 7, 0⟩

/-- An environment in which the initial `getpid()` fails (returns -1). -/
def envGetpidFail : ForkEnv := ⟨-1, 0, 0, 0, 0, 0, 0⟩

/-- An environment in which `fork()` fails (returns -1). -/
def envForkFail : ForkEnv := ⟨7, 7, 3, -1, 7, 3, 0⟩

/-- A child-process environment in which the child's re-queried `getpid()`
fails (returns -1). -/
def cenvGetpidFail : ForkEnv := ⟨7, 7, 3, 0, -1, 7, 0⟩

/-- A child-process environment in which the child's pid (impossibly) equals
the parent's pre-fork pid 7, violating the freshness invariant. -/
def cenvPidClash : ForkEnv := ⟨7, 7, 3, 0, 7, 7, 0⟩

/-- A parent-process environment in which `wait` reports status 9, i.e. the
child was terminated by signal 9 rather than exiting normally. -/
def penvAbnormal : ForkEnv := ⟨7, 7, 3, 8, 7, 3, 9⟩

/-! ## Helper lemmas for the busy-counter -/

lemma countIter_succ (P n : Nat) : countIter P (n + 1) = countStep P (countIter P n) := by
  simp [countIter, Function.iterate_succ_apply']

lemma countIter_fst (P n : Nat) : (countIter P n).1 = n := by
  induction n with
  | zero => simp [countIter]
  | succ n ih => rw [countIter_succ, countStep, ih]

lemma countIter_snd (P n : Nat) :
    (countIter P n).2 = (List.range (n / P)).map (fun j => j + 1) := by
  induction n with
  | zero => simp [countIter, Nat.zero_div]
  | succ n ih =>
    rw [countIter_succ, countStep]
    simp only [countIter_fst, ih]
    by_cases h : (n + 1) % P = 0
    · have hd : P ∣ (n + 1) := Nat.dvd_of_mod_eq_zero h
      have : (n + 1) / P = n / P + 1 := by
        rw [Nat.succ_div, if_pos hd]
      rw [if_pos h, this, List.range_succ, List.map_append]
      simp
    · have hd : ¬ P ∣ (n + 1) := fun hc => by
        obtain ⟨c, hc2⟩ := hc
        exact h (hc2 ▸ Nat.mul_mod_right P c)
      rw [if_neg h, Nat.succ_div, if_neg hd]
      simp

/-! ## Theorems about the busy-counter -/

/-- Claim C2: for every positive `k` the run reaches (i.e. within the range where
`int` arithmetic is exact), after exactly `k * 100000000` increments the
output has exactly `k` lines, the `k`-th line is the value `k`, and at no
point strictly between the `(k-1)`-th and `k`-th multiple of the period has a
`k`-th line been emitted (the output length is still `k - 1`). -/
theorem busy_period_output (k : Nat) (hk : 1 ≤ k) (hreach : k * PERIOD ≤ 2147483647) :
    (busyRun (k * PERIOD)).2.length = k ∧
    (busyRun (k * PERIOD)).2[k - 1]? = some k ∧
    ∀ m, m < PERIOD → (busyRun ((k - 1) * PERIOD + m)).2.length = k - 1 := by
  have hP : 0 < PERIOD := by decide
  refine ⟨?_, ?_, ?_⟩
  · rw [busyRun, countIter_snd, List.length_map, List.length_range,
      Nat.mul_div_cancel _ hP]
  · rw [busyRun, countIter_snd, Nat.mul_div_cancel _ hP]
    rw [List.getElem?_map, List.getElem?_range (by omega : k - 1 < k)]
    simp
    omega
  · intro m hm
    rw [busyRun, countIter_snd, List.length_map, List.length_range,
      Nat.add_comm, Nat.add_mul_div_right _ _ hP, Nat.div_eq_of_lt hm]
    omega

/-- Witness for `busy_period_output` at `k = 1`. -/
theorem busy_period_output_witness :
    (1 ≤ 1 ∧ 1 * PERIOD ≤ 2147483647) ∧
    ((busyRun (1 * PERIOD)).2.length = 1 ∧
     (busyRun (1 * PERIOD)).2[1 - 1]? = some 1 ∧
     ∀ m, m < PERIOD → (busyRun ((1 - 1) * PERIOD + m)).2.length = 1 - 1) :=
  ⟨⟨by decide, by decide⟩, busy_period_output 1 (by decide) (by decide)⟩

/-- Claim C9: the busy-counter never terminates.  Its loop guard (`while (1)`) is
true in every state, and from every reached state the run takes a further
step: the state after `n + 1` iterations is the loop body applied to the state
after `n` iterations, for every `n`. -/
theorem busy_no_termination :
    (∀ s, busyGuard s = true) ∧ ∀ n, busyRun (n + 1) = busyStep (busyRun n) :=
  ⟨fun _ => rfl, fun n => countIter_succ PERIOD n⟩

/-! ## Helper lemmas for the fork demonstrator -/

/-- On the parent's success path (initial `getpid` succeeded, `fork` succeeded
and returned nonzero, and `wait` reported a normal exit with code 0), `main`
prints the five expected lines, reports no error, exits 0, and ends with
`i = 0`, `pid` still equal to `fork`'s return value, and `status` filled in by
`wait`. -/
lemma forkMain_success (env : ForkEnv)
    (h1 : env.pidInit ≠ -1) (h2 : env.forkRet ≠ -1) (h3 : env.forkRet ≠ 0)
    (hw : wifexited env.waitStatus = true) (ha : env.waitStatus = wexitstatus EXIT_SUCCESS) :
    forkMain env =
      ⟨[.checkpoint "before fork" env.pidPre env.ppidPre,
        .checkpoint "after fork" env.pidPost env.ppidPost,
        .checkpoint "after (pid == 0)" env.pidPost env.ppidPost,
        .checkpoint "after wait" env.pidPost env.ppidPost,
        .forkReturn env.forkRet], [], .exited EXIT_SUCCESS,
       some ⟨0, env.forkRet, env.pidInit, some env.waitStatus⟩⟩ := by
  have ha0 : env.waitStatus = 0 := by simpa [wexitstatus, EXIT_SUCCESS] using ha
  simp [forkMain, postFork, h1, h2, h3, ha0, wifexited, wexitstatus, EXIT_SUCCESS]

/-- Whatever the child's OS queries return, the child's contribution to stdout
is the `"after fork"` line followed by the `"inside (pid == 0)"` line. -/
lemma childRun_lines (penv cenv : ForkEnv) :
    (childRun penv cenv).lines =
      [.checkpoint "after fork" cenv.pidPost cenv.ppidPost,
       .checkpoint "inside (pid == 0)" cenv.pidPost cenv.ppidPost] := by
  unfold childRun postFork
  rw [if_pos rfl]
  dsimp only
  split_ifs <;> rfl

/-! ## Theorems about the fork demonstrator -/

/-- Claim C1: over the wait statuses the kernel can deliver, when the
"terminated normally" predicate (`WIFEXITED`) holds, the parent's assertion
`status == WEXITSTATUS(EXIT_SUCCESS)` is equivalent to the extracted exit code
(`WEXITSTATUS(status)`) being the designated success code 0; and when the
child terminated normally with exit code 0, the assertion passes and the
parent's process exits with code 0. -/
theorem fork_wait_assert (env : ForkEnv)
    (h1 : env.pidInit ≠ -1) (h2 : env.forkRet ≠ -1) (h3 : env.forkRet ≠ 0)
    (hk : KernelStatus env.waitStatus) :
    (wifexited env.waitStatus = true →
      ((env.waitStatus = wexitstatus EXIT_SUCCESS) ↔ wexitstatus env.waitStatus = EXIT_SUCCESS)) ∧
    (env.waitStatus = encodeExit EXIT_SUCCESS →
      (forkMain env).outcome = .exited EXIT_SUCCESS) := by
  constructor
  · intro hw
    unfold wifexited at hw
    simp only [decide_eq_true_eq] at hw
    unfold wexitstatus EXIT_SUCCESS
    rcases hk with ⟨c, hc, hs⟩ | ⟨g, hg1, hg2, hs | hs⟩ | ⟨g, hs⟩ <;> omega
  · intro hz
    have hz0 : env.waitStatus = 0 := by simpa [encodeExit, EXIT_SUCCESS] using hz
    simp [forkMain, postFork, h1, h2, h3, hz0, wifexited, wexitstatus, EXIT_SUCCESS]

/-- Witness for `fork_wait_assert` at the clean-run environment. -/
theorem fork_wait_assert_witness :
    (penvC.pidInit ≠ -1 ∧ penvC.forkRet ≠ -1 ∧ penvC.forkRet ≠ 0 ∧ KernelStatus penvC.waitStatus) ∧
    ((wifexited penvC.waitStatus = true →
       ((penvC.waitStatus = wexitstatus EXIT_SUCCESS) ↔ wexitstatus penvC.waitStatus = EXIT_SUCCESS)) ∧
     (penvC.waitStatus = encodeExit EXIT_SUCCESS →
       (forkMain penvC).outcome = .exited EXIT_SUCCESS)) :=
  ⟨⟨by decide, by decide, by decide, Or.inl ⟨0, by decide, by decide⟩⟩,
   fork_wait_assert penvC (by decide) (by decide) (by decide) (Or.inl ⟨0, by decide, by decide⟩)⟩

/-- Claim C3, counterexample: the checkpoint line the parent emits before
waiting (the third line of the parent's output in a clean run) is tagged
`"after (pid == 0)"`, not `"after (child path)"` — the latter is neither the
exact tag nor a prefix of it. -/
theorem fork_prewait_tag_cx :
    (forkMain penvC).lines[2]? = some (.checkpoint "after (pid == 0)" 7 3) ∧
    taggedStart "after (child path)" (.checkpoint "after (pid == 0)" 7 3) = false ∧
    taggedExact "after (child path)" (.checkpoint "after (pid == 0)" 7 3) = false := by
  decide

/-- Claim C3 (amended): every checkpoint line renders as
`"<tag> pid=<pid> ppid=<ppid>"`; every line of a successful run is either a
checkpoint line or the final `fork() return` line; the line the parent emits
before waiting is tagged `"after (pid == 0)"` (not `"after (child path)"` as
the specification puts it); and the parent's final output line renders as
`"fork() return = <pid>"` where `<pid>` is the fork call's return value. -/
theorem fork_output_format (penv cenv : ForkEnv)
    (h1 : penv.pidInit ≠ -1) (h2 : penv.forkRet ≠ -1) (h3 : penv.forkRet ≠ 0)
    (hw : wifexited penv.waitStatus = true) (ha : penv.waitStatus = wexitstatus EXIT_SUCCESS) :
    (∀ t : String, ∀ p q : Int, render (.checkpoint t p q) = s!"{t} pid={p} ppid={q}") ∧
    (∀ l ∈ runLines penv cenv, l = .forkReturn penv.forkRet ∨ ∃ t p q, l = .checkpoint t p q) ∧
    (forkMain penv).lines[2]? = some (.checkpoint "after (pid == 0)" penv.pidPost penv.ppidPost) ∧
    (forkMain penv).lines.getLast? = some (.forkReturn penv.forkRet) ∧
    render (.forkReturn penv.forkRet) = s!"fork() return = {penv.forkRet}" := by
  refine ⟨fun t p q => rfl, ?_, ?_, ?_, rfl⟩
  · intro l hl
    rw [runLines, forkMain_success _ h1 h2 h3 hw ha, childRun_lines] at hl
    simp at hl
    rcases hl with h | h | h | h | h | h | h <;> subst h <;> simp
  · rw [forkMain_success _ h1 h2 h3 hw ha]
    rfl
  · rw [forkMain_success _ h1 h2 h3 hw ha]
    rfl

/-- Witness for `fork_output_format` at the clean-run environments. -/
theorem fork_output_format_witness :
    (penvC.pidInit ≠ -1 ∧ penvC.forkRet ≠ -1 ∧ penvC.forkRet ≠ 0 ∧
     wifexited penvC.waitStatus = true ∧ penvC.waitStatus = wexitstatus EXIT_SUCCESS) ∧
    ((∀ t : String, ∀ p q : Int, render (.checkpoint t p q) = s!"{t} pid={p} ppid={q}") ∧
     (∀ l ∈ runLines penvC cenvC, l = .forkReturn penvC.forkRet ∨ ∃ t p q, l = .checkpoint t p q) ∧
     (forkMain penvC).lines[2]? = some (.checkpoint "after (pid == 0)" penvC.pidPost penvC.ppidPost) ∧
     (forkMain penvC).lines.getLast? = some (.forkReturn penvC.forkRet) ∧
     render (.forkReturn penvC.forkRet) = s!"fork() return = {penvC.forkRet}") :=
  ⟨⟨by decide, by decide, by decide, by decide, by decide⟩,
   fork_output_format penvC cenvC (by decide) (by decide) (by decide) (by decide) (by decide)⟩

/-- Claim C4: in a run in which the child executes its increment before
exiting (its final counter is 1) and the parent completes, the parent's
counter `i` is still 0 at the end of the program and the parent's final
assertion `i == 0` passes (the parent exits 0): the child's increment touched
only the child's copy. -/
theorem fork_counter_isolation (penv cenv : ForkEnv)
    (h1 : penv.pidInit ≠ -1) (h2 : penv.forkRet ≠ -1) (h3 : penv.forkRet ≠ 0)
    (hw : wifexited penv.waitStatus = true) (ha : penv.waitStatus = wexitstatus EXIT_SUCCESS)
    (hc1 : cenv.pidPost ≠ -1) (hc2 : cenv.pidPost ≠ penv.pidInit) :
    (∃ w, (childRun penv cenv).finalVars = some w ∧ w.i = 1) ∧
    (∃ v, (forkMain penv).finalVars = some v ∧ v.i = 0) ∧
    (forkMain penv).outcome = .exited EXIT_SUCCESS := by
  rw [forkMain_success _ h1 h2 h3 hw ha]
  refine ⟨?_, ⟨_, rfl, rfl⟩, rfl⟩
  simp [childRun, postFork, hc1, hc2]

/-- Witness for `fork_counter_isolation` at the clean-run environments. -/
theorem fork_counter_isolation_witness :
    (penvC.pidInit ≠ -1 ∧ penvC.forkRet ≠ -1 ∧ penvC.forkRet ≠ 0 ∧
     wifexited penvC.waitStatus = true ∧ penvC.waitStatus = wexitstatus EXIT_SUCCESS ∧
     cenvC.pidPost ≠ -1 ∧ cenvC.pidPost ≠ penvC.pidInit) ∧
    ((∃ w, (childRun penvC cenvC).finalVars = some w ∧ w.i = 1) ∧
     (∃ v, (forkMain penvC).finalVars = some v ∧ v.i = 0) ∧
     (forkMain penvC).outcome = .exited EXIT_SUCCESS) :=
  ⟨⟨by decide, by decide, by decide, by decide, by decide, by decide, by decide⟩,
   fork_counter_isolation penvC cenvC (by decide) (by decide) (by decide) (by decide) (by decide)
     (by decide) (by decide)⟩

/-- Claim C5: under the precondition that fork assigned the child a fresh pid
(the pid the child re-queries differs from the pid the parent captured before
the fork, and the re-query succeeded), the child's assertion `pid != ppid`
passes and the child exits with the success code. -/
theorem fork_child_assert_passes (penv cenv : ForkEnv)
    (hc1 : cenv.pidPost ≠ -1) (hfresh : cenv.pidPost ≠ penv.pidInit) :
    (childRun penv cenv).outcome = .exited EXIT_SUCCESS := by
  simp [childRun, postFork, hc1, hfresh]

/-- Witness for `fork_child_assert_passes` at the clean-run environments. -/
theorem fork_child_assert_passes_witness :
    (cenvC.pidPost ≠ -1 ∧ cenvC.pidPost ≠ penvC.pidInit) ∧
    (childRun penvC cenvC).outcome = .exited EXIT_SUCCESS :=
  ⟨⟨by decide, by decide⟩, fork_child_assert_passes penvC cenvC (by decide) (by decide)⟩

/-- Claim C6: the fork demonstrator's error handling.  If the initial
process-id query fails, it reports the diagnostic `"getpid"` and exits with
the non-zero code `EXIT_FAILURE`; if the process-duplication call fails, it
reports `"fork"` and aborts; if the child's re-queried pid query fails, the
child reports `"getpid"` and exits non-zero; an unexpected pid equality makes
the child's assertion abort; an abnormal child termination makes the parent
report a diagnostic and abort.  Every failing branch ends the process
immediately — nothing is retried or recovered. -/
theorem fork_error_handling (env penv cenv : ForkEnv) :
    (env.pidInit = -1 →
      forkMain env = ⟨[], ["getpid"], .exited EXIT_FAILURE, none⟩ ∧ 0 < EXIT_FAILURE) ∧
    (env.pidInit ≠ -1 → env.forkRet = -1 →
      (forkMain env).errs = ["fork"] ∧ (forkMain env).outcome = .aborted) ∧
    (cenv.pidPost = -1 →
      (childRun penv cenv).errs = ["getpid"] ∧
      (childRun penv cenv).outcome = .exited EXIT_FAILURE ∧ 0 < EXIT_FAILURE) ∧
    (cenv.pidPost ≠ -1 → cenv.pidPost = penv.pidInit →
      (childRun penv cenv).outcome = .aborted) ∧
    (penv.pidInit ≠ -1 → penv.forkRet ≠ -1 → penv.forkRet ≠ 0 →
      wifexited penv.waitStatus = false →
      (forkMain penv).errs = ["execl abnormal exit"] ∧ (forkMain penv).outcome = .aborted) := by
  refine ⟨?_, ?_, ?_, ?_, ?_⟩
  · intro h; exact ⟨by simp [forkMain, h], by decide⟩
  · intro h1 h2; constructor <;> simp [forkMain, h1, h2]
  · intro hc; refine ⟨?_, ?_, by decide⟩ <;> simp [childRun, postFork, hc]
  · intro hc1 hc2
    have hne : penv.pidInit ≠ -1 := hc2 ▸ hc1
    simp [childRun, postFork, hc1, hc2, hne]
  · intro h1 h2 h3 hw; constructor <;> simp [forkMain, postFork, h1, h2, h3, hw]

/-- Witness for `fork_error_handling`: each failure branch exercised at a
concrete environment. -/
theorem fork_error_handling_witness :
    (envGetpidFail.pidInit = -1 ∧
      forkMain envGetpidFail = ⟨[], ["getpid"], .exited EXIT_FAILURE, none⟩ ∧ 0 < EXIT_FAILURE) ∧
    (envForkFail.pidInit ≠ -1 ∧ envForkFail.forkRet = -1 ∧
      (forkMain envForkFail).errs = ["fork"] ∧ (forkMain envForkFail).outcome = .aborted) ∧
    (cenvGetpidFail.pidPost = -1 ∧
      (childRun penvC cenvGetpidFail).errs = ["getpid"] ∧
      (childRun penvC cenvGetpidFail).outcome = .exited EXIT_FAILURE ∧ 0 < EXIT_FAILURE) ∧
    (cenvPidClash.pidPost ≠ -1 ∧ cenvPidClash.pidPost = penvC.pidInit ∧
      (childRun penvC cenvPidClash).outcome = .aborted) ∧
    (penvAbnormal.pidInit ≠ -1 ∧ penvAbnormal.forkRet ≠ -1 ∧ penvAbnormal.forkRet ≠ 0 ∧
      wifexited penvAbnormal.waitStatus = false ∧
      (forkMain penvAbnormal).errs = ["execl abnormal exit"] ∧
      (forkMain penvAbnormal).outcome = .aborted) :=
  ⟨⟨by decide, (fork_error_handling envGetpidFail penvC cenvC).1 (by decide)⟩,
   ⟨by decide, by decide, (fork_error_handling envForkFail penvC cenvC).2.1 (by decide) (by decide)⟩,
   ⟨by decide, (fork_error_handling envForkFail penvC cenvGetpidFail).2.2.1 (by decide)⟩,
   ⟨by decide, by decide, (fork_error_handling envForkFail penvC cenvPidClash).2.2.2.1 (by decide) (by decide)⟩,
   ⟨by decide, by decide, by decide, by decide,
    (fork_error_handling envForkFail penvAbnormal cenvC).2.2.2.2 (by decide) (by decide) (by decide) (by decide)⟩⟩

/-- Claim C7: in a successful run (parent plus child), exactly one line whose
tag begins with `"inside"` is produced (the child's `"inside (pid == 0)"`
line), and exactly one line tagged exactly `"after wait"` is produced (the
parent's). -/
theorem fork_unique_lines (penv cenv : ForkEnv)
    (h1 : penv.pidInit ≠ -1) (h2 : penv.forkRet ≠ -1) (h3 : penv.forkRet ≠ 0)
    (hw : wifexited penv.waitStatus = true) (ha : penv.waitStatus = wexitstatus EXIT_SUCCESS) :
    (runLines penv cenv).countP (taggedStart "inside") = 1 ∧
    (runLines penv cenv).countP (taggedExact "after wait") = 1 := by
  rw [runLines, forkMain_success _ h1 h2 h3 hw ha, childRun_lines]
  exact ⟨rfl, rfl⟩

/-- Witness for `fork_unique_lines` at the clean-run environments. -/
theorem fork_unique_lines_witness :
    (penvC.pidInit ≠ -1 ∧ penvC.forkRet ≠ -1 ∧ penvC.forkRet ≠ 0 ∧
     wifexited penvC.waitStatus = true ∧ penvC.waitStatus = wexitstatus EXIT_SUCCESS) ∧
    ((runLines penvC cenvC).countP (taggedStart "inside") = 1 ∧
     (runLines penvC cenvC).countP (taggedExact "after wait") = 1) :=
  ⟨⟨by decide, by decide, by decide, by decide, by decide⟩,
   fork_unique_lines penvC cenvC (by decide) (by decide) (by decide) (by decide) (by decide)⟩

/-- Claim C8: under the OS guarantee that `getpid` returns the same value on
both pre-fork calls, the pid printed in the `"before fork"` line equals the
pre-duplication id stored in the `ppid` variable. -/
theorem fork_before_line_pid (env : ForkEnv)
    (h1 : env.pidInit ≠ -1) (hstable : env.pidPre = env.pidInit) :
    (forkMain env).lines.head? = some (.checkpoint "before fork" env.pidInit env.ppidPre) := by
  unfold forkMain
  rw [if_neg h1]
  by_cases h2 : env.forkRet = -1 <;> simp [h2, hstable]

/-- Witness for `fork_before_line_pid` at the clean-run environment. -/
theorem fork_before_line_pid_witness :
    (penvC.pidInit ≠ -1 ∧ penvC.pidPre = penvC.pidInit) ∧
    (forkMain penvC).lines.head? = some (.checkpoint "before fork" penvC.pidInit penvC.ppidPre) :=
  ⟨⟨by decide, by decide⟩, fork_before_line_pid penvC (by decide) (by decide)⟩

/-- Claim C10: on the parent's success path nothing after the fork writes the
`pid` variable: the final line printed is `fork() return` applied to exactly
`fork`'s return value, and in the parent's final variable state `pid` still
equals that return value (with `status` the value `wait` stored). -/
theorem fork_pid_frame (env : ForkEnv)
    (h1 : env.pidInit ≠ -1) (h2 : env.forkRet ≠ -1) (h3 : env.forkRet ≠ 0)
    (hw : wifexited env.waitStatus = true) (ha : env.waitStatus = wexitstatus EXIT_SUCCESS) :
    (forkMain env).lines.getLast? = some (.forkReturn env.forkRet) ∧
    (forkMain env).finalVars = some ⟨0, env.forkRet, env.pidInit, some env.waitStatus⟩ := by
  rw [forkMain_success env h1 h2 h3 hw ha]
  exact ⟨rfl, rfl⟩

/-- Witness for `fork_pid_frame` at the clean-run environment. -/
theorem fork_pid_frame_witness :
    (penvC.pidInit ≠ -1 ∧ penvC.forkRet ≠ -1 ∧ penvC.forkRet ≠ 0 ∧
     wifexited penvC.waitStatus = true ∧ penvC.waitStatus = wexitstatus EXIT_SUCCESS) ∧
    ((forkMain penvC).lines.getLast? = some (.forkReturn penvC.forkRet) ∧
     (forkMain penvC).finalVars = some ⟨0, penvC.forkRet, penvC.pidInit, some penvC.waitStatus⟩) :=
  ⟨⟨by decide, by decide, by decide, by decide, by decide⟩,
   fork_pid_frame penvC (by decide) (by decide) (by decide) (by decide) (by decide)⟩
